import Mathlib

/-!
Verification development for the LUGX analytics service.

This file gives a shallow embedding of the event-ingestion and dashboard
code of `src/services/analytics-service/app-clickhouse.js` and
`src/services/analytics-service/clickhouse.js`, together with theorems
settling the frozen claims about that code.

Conventions of the embedding:
* JSON values that may be absent (`undefined`) are modelled as `Option`.
* JS truthiness of `x || d` on strings (empty string is falsy) is modelled
  by `jsOr` / `jsOrNull`; on numbers (0 is falsy) by `jsNatOrNull`.
* Wall-clock time (`new Date().toISOString()`) and uuid generation
  (`uuidv4()`) are passed in as parameters: `now` is the current time
  string and `genId i` is the fresh uuid that would be generated while
  processing the event at position `i`.
* The ClickHouse client is modelled as an oracle. All tables in
  `src/database/clickhouse/init/01-create-schema.sql` use the plain
  `MergeTree()` engine, whose insert appends rows with no key based
  deduplication, so a successful insert of `vals` into a table holding
  `rows` yields `rows ++ vals`. `attempt k` is the outcome the store
  would give to the k-th insert attempt of a call.
-/

namespace Lugx

/-- JS `a || b` for a possibly-absent string: absent and the empty string
are falsy, so both fall through to the default. -/
def jsOr (o : Option String) (d : String) : String :=
  match o with
  | none => d
  | some s => if s = "" then d else s

/-- JS `a || null` for a possibly-absent string: the empty string is falsy
and becomes `null`. -/
def jsOrNull (o : Option String) : Option String :=
  match o with
  | none => none
  | some s => if s = "" then none else some s

/-- JS `a || null` for a possibly-absent number: `0` is falsy and becomes
`null`. -/
def jsNatOrNull (o : Option Nat) : Option Nat :=
  match o with
  | none => none
  | some n => if n = 0 then none else some n

/-- JS `String.prototype.replace` with a string pattern replaces only the
first occurrence. -/
def replaceFirst (s pat rep : String) : String :=
  match s.splitOn pat with
  | [] => s
  | [x] => x
  | x :: rest => x ++ rep ++ String.intercalate pat rest

/-- Timestamp munging from app-clickhouse.js lines 336-339: when the
string contains both a T and a Z, `replace(T, space).replace(Z, empty
string).split(dot)[0]`. -/
def formatTimestamp (ts : String) : String :=
  if ts.contains 'T' && ts.contains 'Z' then
    ((replaceFirst (replaceFirst ts "T" " ") "Z" "").splitOn ".").headD ""
  else ts

/-- A raw event as posted to `POST /api/analytics/events`. Every field the
handler in app-clickhouse.js reads from an event object, each optional
because JSON fields may be absent. `event_data` is modelled as the JSON
serialization of the payload object (the handler stores
`JSON.stringify(event.event_data || \x7b\x7d)`). -/
structure RawEvent where
  event_type : Option String := none
  event_id : Option String := none
  session_id : Option String := none
  user_id : Option String := none
  timestamp : Option String := none
  page_url : Option String := none
  page_title : Option String := none
  page_category : Option String := none
  time_on_page_seconds : Option Nat := none
  scroll_depth_percentage : Option Nat := none
  exit_page : Option Bool := none
  bounce : Option Bool := none
  previous_page : Option String := none
  referrer : Option String := none
  game_id : Option Nat := none
  game_title : Option String := none
  game_category : Option String := none
  interaction_type : Option String := none
  event_data : Option String := none
  page_context : Option String := none
  search_query : Option String := none
  search_category : Option String := none
  results_count : Option Nat := none
  clicked_result_position : Option Nat := none
  clicked_game_id : Option Nat := none
  no_results : Option Bool := none
  service_name : Option String := none
  metric_type : Option String := none
  metric_value : Option Rat := none
  unit : Option String := none
  endpoint : Option String := none
  status_code : Option Nat := none
  error_message : Option String := none
deriving Repr, DecidableEq

/-- `baseEvent` built at app-clickhouse.js lines 341-346: id defaults to a
fresh uuid, user_id defaults to null, timestamp defaults to the current
time and is then formatted. -/
structure BaseEvent where
  event_id : String
  session_id : Option String
  user_id : Option String
  timestamp : String
deriving Repr, DecidableEq

def mkBase (now freshId : String) (e : RawEvent) : BaseEvent :=
  { event_id := jsOr e.event_id freshId
    session_id := e.session_id
    user_id := jsOrNull e.user_id
    timestamp := formatTimestamp (jsOr e.timestamp now) }

/-- Row pushed onto `pageViews` (app-clickhouse.js lines 350-361). -/
structure PageViewRow where
  event_id : String
  session_id : Option String
  user_id : Option String
  timestamp : String
  page_url : Option String
  page_title : Option String
  page_category : Option String
  time_on_page_seconds : Nat
  scroll_depth_percentage : Nat
  exit_page : Bool
  bounce : Bool
  previous_page : Option String
  referrer : String
deriving Repr, DecidableEq

def mkPageViewRow (now freshId : String) (e : RawEvent) : PageViewRow :=
  let b := mkBase now freshId e
  { event_id := b.event_id
    session_id := b.session_id
    user_id := b.user_id
    timestamp := b.timestamp
    page_url := e.page_url
    page_title := e.page_title
    page_category := e.page_category
    time_on_page_seconds := e.time_on_page_seconds.getD 0
    scroll_depth_percentage := e.scroll_depth_percentage.getD 0
    exit_page := e.exit_page.getD false
    bounce := e.bounce.getD false
    previous_page := jsOrNull e.previous_page
    referrer := jsOr e.referrer "" }

/-- Row pushed onto `gameInteractions` (app-clickhouse.js lines 365-373). -/
structure GameInteractionRow where
  event_id : String
  session_id : Option String
  user_id : Option String
  timestamp : String
  game_id : Option Nat
  game_title : Option String
  game_category : Option String
  event_type : Option String
  event_data : String
  page_context : String
deriving Repr, DecidableEq

def mkGameInteractionRow (now freshId : String) (e : RawEvent) : GameInteractionRow :=
  let b := mkBase now freshId e
  { event_id := b.event_id
    session_id := b.session_id
    user_id := b.user_id
    timestamp := b.timestamp
    game_id := e.game_id
    game_title := e.game_title
    game_category := e.game_category
    event_type := e.interaction_type
    event_data := e.event_data.getD "\x7b\x7d"
    page_context := jsOr e.page_context "" }

/-- Row pushed onto `searchEvents` (app-clickhouse.js lines 377-385). -/
structure SearchEventRow where
  event_id : String
  session_id : Option String
  user_id : Option String
  timestamp : String
  search_query : Option String
  search_category : Option String
  results_count : Nat
  clicked_result_position : Option Nat
  clicked_game_id : Option Nat
  no_results : Bool
deriving Repr, DecidableEq

def mkSearchEventRow (now freshId : String) (e : RawEvent) : SearchEventRow :=
  let b := mkBase now freshId e
  { event_id := b.event_id
    session_id := b.session_id
    user_id := b.user_id
    timestamp := b.timestamp
    search_query := e.search_query
    search_category := jsOrNull e.search_category
    results_count := e.results_count.getD 0
    clicked_result_position := jsNatOrNull e.clicked_result_position
    clicked_game_id := jsNatOrNull e.clicked_game_id
    no_results := e.no_results.getD false }

/-- Row pushed onto `performanceMetrics` (app-clickhouse.js lines 389-399);
its id field is named metric_id and reuses the base event id. -/
structure PerformanceRow where
  metric_id : String
  service_name : Option String
  metric_type : Option String
  metric_value : Option Rat
  unit : String
  endpoint : Option String
  status_code : Option Nat
  error_message : Option String
  timestamp : String
deriving Repr, DecidableEq

def mkPerformanceRow (now freshId : String) (e : RawEvent) : PerformanceRow :=
  let b := mkBase now freshId e
  { metric_id := b.event_id
    service_name := e.service_name
    metric_type := e.metric_type
    metric_value := e.metric_value
    unit := jsOr e.unit ""
    endpoint := jsOrNull e.endpoint
    status_code := jsNatOrNull e.status_code
    error_message := jsOrNull e.error_message
    timestamp := b.timestamp }

/-- The four recognized event kinds of the `switch (event.event_type)` at
app-clickhouse.js line 348. -/
inductive Kind where
  | pageView
  | gameInteraction
  | search
  | performance
deriving Repr, DecidableEq

/-- Which batch the switch routes an event to; `none` is the missing
default case: an absent or unrecognized event_type matches no case and the
event is routed nowhere. -/
def routeKind (e : RawEvent) : Option Kind :=
  match e.event_type with
  | some "page_view" => some Kind.pageView
  | some "game_interaction" => some Kind.gameInteraction
  | some "search" => some Kind.search
  | some "performance" => some Kind.performance
  | _ => none

/-- The four per-kind batches built by the `events.forEach` loop. -/
structure Batches where
  pageViews : List PageViewRow
  gameInteractions : List GameInteractionRow
  searchEvents : List SearchEventRow
  performanceMetrics : List PerformanceRow
deriving Repr, DecidableEq

/-- The `events.forEach` loop of app-clickhouse.js lines 334-402: each
event is routed by its event_type into exactly one of the four batch
arrays, or dropped when no case matches. `i` is the position of the head
event in the original array (used to key fresh uuids). -/
def partitionEvents (now : String) (genId : Nat → String) : Nat → List RawEvent → Batches
  | _, [] => ⟨[], [], [], []⟩
  | i, e :: rest =>
    let b := partitionEvents now genId (i + 1) rest
    match routeKind e with
    | some Kind.pageView =>
        { b with pageViews := mkPageViewRow now (genId i) e :: b.pageViews }
    | some Kind.gameInteraction =>
        { b with gameInteractions := mkGameInteractionRow now (genId i) e :: b.gameInteractions }
    | some Kind.search =>
        { b with searchEvents := mkSearchEventRow now (genId i) e :: b.searchEvents }
    | some Kind.performance =>
        { b with performanceMetrics := mkPerformanceRow now (genId i) e :: b.performanceMetrics }
    | none => b

/-- Result object of `insertData` (clickhouse.js lines 56 and 68). -/
structure InsertResult where
  success : Bool
  inserted : Nat
deriving Repr, DecidableEq

/-- `insertData(table, data)` from clickhouse.js lines 53-73, specialized
to array input. An empty array returns success with zero inserted without
calling the client; otherwise the function makes a single
`clickhouse.insert` call, whose outcome is `attempt 0` (the code performs
only attempt 0 and consults no later attempt); a failed call re-throws the
store error. `rows` is the current content of the target MergeTree table,
which an insert appends to. The returned `Nat` counts the client insert
calls the function issued. -/
def insertData {α : Type} (attempt : Nat → Except String Unit) (table : String)
    (data : List α) (rows : List α) : Except String (List α × InsertResult × Nat) :=
  if data.isEmpty then
    Except.ok (rows, ⟨true, 0⟩, 0)
  else
    match attempt 0 with
    | Except.ok _ => Except.ok (rows ++ data, ⟨true, data.length⟩, 1)
    | Except.error e => Except.error e

/-- The per-table guard at app-clickhouse.js lines 407-418: an insert
promise is pushed only when the batch is non-empty. Returns the table
rows after the (possible) insert. `table` is kept for fidelity with the
call sites. -/
def insertBatch {α : Type} (attempt : Nat → Except String Unit) (table : String)
    (batch : List α) (rows : List α) : Except String (List α) :=
  if batch.isEmpty then Except.ok rows
  else
    match insertData attempt table batch rows with
    | Except.ok r => Except.ok r.1
    | Except.error e => Except.error e

/-- The four analytics tables touched by the events endpoint, each a plain
MergeTree row list (01-create-schema.sql). -/
structure Store where
  page_views : List PageViewRow := []
  game_interactions : List GameInteractionRow := []
  search_events : List SearchEventRow := []
  performance_metrics : List PerformanceRow := []
deriving Repr, DecidableEq

/-- The `processed` field of the events response: the not-connected path
returns a bare count (app-clickhouse.js line 324), the full path a
five-field object (lines 425-431). -/
inductive ProcessedField where
  | count (n : Nat)
  | detail (total page_views game_interactions search_events performance_metrics : Nat)
deriving Repr, DecidableEq

/-- JSON response of `POST /api/analytics/events`: HTTP status plus the
body fields the handler ever sets. -/
structure EventsResponse where
  status : Nat
  success : Bool
  error : Option String := none
  message : Option String := none
  processed : Option ProcessedField := none
deriving Repr, DecidableEq

/-- 500 response of the catch handler at app-clickhouse.js lines 434-441. -/
def storeFailureResp (e : String) : EventsResponse :=
  { status := 500
    success := false
    error := some "Failed to process analytics events"
    message := some e }

/-- The `POST /api/analytics/events` handler (app-clickhouse.js lines
307-442). `events?` is `req.body.events` when it is an array, `none` when
the key is missing or not an array. `attempt t k` is the store outcome of
the k-th insert attempt against table `t`. Returns the response and the
store after the call; when an insert fails the response comes from the
catch handler and the store is returned unchanged (effects of
concurrently started inserts at the failure point are not modelled; no
claim depends on them). -/
def postEvents (connected : Bool) (events? : Option (List RawEvent)) (now : String)
    (genId : Nat → String) (attempt : String → Nat → Except String Unit)
    (s : Store) : EventsResponse × Store :=
  match events? with
  | none => ({ status := 400, success := false, error := some "Events array is required" }, s)
  | some events =>
    if events.isEmpty then
      ({ status := 400, success := false, error := some "Events array is required" }, s)
    else if connected = false then
      ({ status := 200, success := true, message := some "Events queued for processing",
         processed := some (ProcessedField.count events.length) }, s)
    else
      let b := partitionEvents now genId 0 events
      match insertBatch (attempt "page_views") "page_views" b.pageViews s.page_views with
      | Except.error e => (storeFailureResp e, s)
      | Except.ok pv =>
        match insertBatch (attempt "game_interactions") "game_interactions"
            b.gameInteractions s.game_interactions with
        | Except.error e => (storeFailureResp e, s)
        | Except.ok gi =>
          match insertBatch (attempt "search_events") "search_events"
              b.searchEvents s.search_events with
          | Except.error e => (storeFailureResp e, s)
          | Except.ok se =>
            match insertBatch (attempt "performance_metrics") "performance_metrics"
                b.performanceMetrics s.performance_metrics with
            | Except.error e => (storeFailureResp e, s)
            | Except.ok pm =>
              ({ status := 200, success := true,
                 message := some "Events processed successfully",
                 processed := some (ProcessedField.detail events.length
                   b.pageViews.length b.gameInteractions.length
                   b.searchEvents.length b.performanceMetrics.length) },
               { page_views := pv, game_interactions := gi,
                 search_events := se, performance_metrics := pm })

/-- SQL text built by `getRealTimeMetrics` (clickhouse.js lines 106-122):
the caller-supplied `timeRange` is spliced verbatim into the INTERVAL
clause with no validation or quoting. Whitespace of the template literal
is normalized; the tokens are those of the source. -/
def realTimeQuery (timeRange : String) : String :=
  "SELECT toStartOfMinute(timestamp) as minute, count() as page_views, " ++
  "uniq(session_id) as unique_sessions, uniq(user_id) as unique_users, " ++
  "avg(time_on_page_seconds) as avg_time_on_page FROM page_views " ++
  "WHERE timestamp >= now() - INTERVAL " ++ timeRange ++
  " GROUP BY minute ORDER BY minute DESC LIMIT 60"

/-- SQL text built by `getGamePopularity` (clickhouse.js lines 125-144);
quoted event-type literals of the source are elided from the embedded
text, the INTERVAL splice is kept. -/
def gamePopularityQuery (timeRange : String) : String :=
  "SELECT gi.game_title, gi.game_category, count() as total_interactions " ++
  "FROM game_interactions gi WHERE gi.timestamp >= now() - INTERVAL " ++ timeRange ++
  " GROUP BY gi.game_title, gi.game_category ORDER BY total_interactions DESC LIMIT 20"

/-- SQL text built by `getConversionFunnel` (clickhouse.js lines 147-168);
quoted funnel-step literals of the source are elided from the embedded
text, the INTERVAL splice is kept. -/
def conversionFunnelQuery (timeRange : String) : String :=
  "SELECT funnel_step, count() as step_count, uniq(session_id) as unique_sessions, " ++
  "sum(total_amount) as revenue FROM purchase_events " ++
  "WHERE purchase_timestamp >= now() - INTERVAL " ++ timeRange ++
  " GROUP BY funnel_step ORDER BY funnel_step"

/-- SQL text built by `getUserBehaviorMetrics` (clickhouse.js lines
171-188). -/
def userBehaviorQuery (timeRange : String) : String :=
  "SELECT toStartOfDay(session_start_time) as date, count() as total_sessions, " ++
  "uniq(user_id) as unique_users, avg(session_duration_seconds) as avg_session_duration, " ++
  "avg(page_views) as avg_pages_per_session, countIf(page_views = 1) as bounce_sessions, " ++
  "round(countIf(page_views = 1) / count() * 100, 2) as bounce_rate FROM user_sessions " ++
  "WHERE session_start_time >= now() - INTERVAL " ++ timeRange ++
  " GROUP BY date ORDER BY date DESC"

/-- A row of the `getRealTimeMetrics` result set. -/
structure MetricRow where
  minute : String := ""
  page_views : Nat := 0
  unique_sessions : Nat := 0
  unique_users : Nat := 0
  avg_time_on_page : Rat := 0
deriving Repr, DecidableEq

/-- A row of the `getGamePopularity` result set (fields the dashboard
handler forwards). -/
structure GameRow where
  game_title : String := ""
  game_category : String := ""
  total_interactions : Nat := 0
deriving Repr, DecidableEq

/-- A row of the `getConversionFunnel` result set. -/
structure FunnelRow where
  funnel_step : String := ""
  step_count : Nat := 0
  unique_sessions : Nat := 0
  revenue : Rat := 0
deriving Repr, DecidableEq

/-- A row of the `getUserBehaviorMetrics` result set. -/
structure BehaviorRow where
  date : String := ""
  total_sessions : Nat := 0
  unique_users : Nat := 0
  avg_session_duration : Rat := 0
  avg_pages_per_session : Rat := 0
  bounce_sessions : Nat := 0
  bounce_rate : Rat := 0
deriving Repr, DecidableEq

/-- The ClickHouse read side, as an oracle: one evaluator per result-row
shape, each receiving the full SQL text the service builds (so a store
that rejects malformed SQL is a particular oracle). -/
structure ChStore where
  runMetrics : String → Except String (List MetricRow)
  runGames : String → Except String (List GameRow)
  runFunnel : String → Except String (List FunnelRow)
  runBehavior : String → Except String (List BehaviorRow)

def getRealTimeMetrics (ch : ChStore) (timeRange : String) :
    Except String (List MetricRow) :=
  ch.runMetrics (realTimeQuery timeRange)

def getGamePopularity (ch : ChStore) (timeRange : String) :
    Except String (List GameRow) :=
  ch.runGames (gamePopularityQuery timeRange)

def getConversionFunnel (ch : ChStore) (timeRange : String) :
    Except String (List FunnelRow) :=
  ch.runFunnel (conversionFunnelQuery timeRange)

def getUserBehaviorMetrics (ch : ChStore) (timeRange : String) :
    Except String (List BehaviorRow) :=
  ch.runBehavior (userBehaviorQuery timeRange)

/-- `data.summary` of the dashboard response (app-clickhouse.js lines
112-120). -/
structure DashSummary where
  total_page_views : Nat
  total_sessions : Nat
  total_users : Nat
  avg_session_duration : Rat
  bounce_rate : Rat
deriving Repr, DecidableEq

/-- `data` of the dashboard response (app-clickhouse.js lines 111-126). -/
structure DashData where
  summary : DashSummary
  realtime_metrics : List MetricRow
  top_games : List GameRow
  conversion_funnel : List FunnelRow
  daily_metrics : List BehaviorRow
  timeRange : String
deriving Repr, DecidableEq

/-- JSON response of `GET /api/analytics/dashboard`: HTTP status plus the
body fields the handler ever sets. -/
structure DashResponse where
  status : Nat
  success : Bool
  error : Option String := none
  message : Option String := none
  data : Option DashData := none
deriving Repr, DecidableEq

/-- The `GET /api/analytics/dashboard` handler (app-clickhouse.js lines
80-137). `timeRange?` is the raw query parameter (defaulted to 24 HOUR by
destructuring); it is never validated, only forwarded to
`getRealTimeMetrics`. The four queries run under `Promise.all`; any store
error lands in the catch handler, which answers 500. -/
def dashboardHandler (connected : Bool) (timeRange? : Option String)
    (ch : ChStore) : DashResponse :=
  let timeRange := timeRange?.getD "24 HOUR"
  if connected = false then
    { status := 503, success := false, error := some "ClickHouse not available",
      message := some "Analytics database is not connected" }
  else
    match getRealTimeMetrics ch timeRange, getGamePopularity ch "7 DAY",
        getConversionFunnel ch "7 DAY", getUserBehaviorMetrics ch "7 DAY" with
    | Except.ok rm, Except.ok gp, Except.ok cf, Except.ok ub =>
        { status := 200, success := true,
          data := some
            { summary :=
                { total_page_views := (rm.map (·.page_views)).sum
                  total_sessions := (rm.map (·.unique_sessions)).sum
                  total_users := (rm.map (·.unique_users)).sum
                  avg_session_duration :=
                    if ub.length > 0 then
                      (ub.map (·.avg_session_duration)).sum / (ub.length : Rat)
                    else 0
                  bounce_rate :=
                    if ub.length > 0 then
                      (ub.map (·.bounce_rate)).sum / (ub.length : Rat)
                    else 0 }
              realtime_metrics := rm.take 60
              top_games := gp.take 10
              conversion_funnel := cf
              daily_metrics := ub.take 7
              timeRange := timeRange } }
    | Except.error e, _, _, _ =>
        { status := 500, success := false,
          error := some "Failed to fetch dashboard analytics", message := some e }
    | _, Except.error e, _, _ =>
        { status := 500, success := false,
          error := some "Failed to fetch dashboard analytics", message := some e }
    | _, _, Except.error e, _ =>
        { status := 500, success := false,
          error := some "Failed to fetch dashboard analytics", message := some e }
    | _, _, _, Except.error e =>
        { status := 500, success := false,
          error := some "Failed to fetch dashboard analytics", message := some e }

/-! ## Concrete fixtures for witnesses and counterexamples -/

/-- A concrete wall-clock time string. -/
def nowISO : String := "2025-01-15T10:00:00.000Z"

/-- A deterministic stand-in for `uuidv4()`, keyed by event position. -/
def uuidAt (i : Nat) : String := "uuid-" ++ toString i

/-- A store whose inserts always succeed. -/
def okAttempt : String → Nat → Except String Unit := fun _ _ => Except.ok ()

/-- A store whose inserts always fail. -/
def downAttempt : String → Nat → Except String Unit :=
  fun _ _ => Except.error "store down"

/-- An insert-attempt oracle realizing the transient fault of the spec
example: the first three attempts fail, every later attempt succeeds. -/
def failsThrice : Nat → Except String Unit :=
  fun n => if n < 3 then Except.error "timeout" else Except.ok ()

/-- A well-formed page_view event. -/
def evPV : RawEvent :=
  { event_type := some "page_view", event_id := some "e1",
    session_id := some "s1", timestamp := some "2025-01-15T10:00:00.000Z",
    page_url := some "/", page_title := some "Home" }

/-- An event with an unrecognized kind. -/
def evBogus : RawEvent :=
  { event_type := some "bogus", event_id := some "e9", session_id := some "s1" }

/-- First delivery of an event with id dup-1. -/
def evDupA : RawEvent :=
  { event_type := some "page_view", event_id := some "dup-1",
    session_id := some "s1", timestamp := some "2025-01-15T10:00:00.000Z",
    page_url := some "/a" }

/-- Re-delivery carrying the same event_id dup-1. -/
def evDupB : RawEvent := { evDupA with page_url := some "/b" }

/-- A concrete page-view row, as the handler would build it. -/
def pvRowA : PageViewRow := mkPageViewRow nowISO "uuid-0" evPV

/-- A read store on which every query succeeds with an empty result set. -/
def chEmpty : ChStore :=
  { runMetrics := fun _ => Except.ok []
    runGames := fun _ => Except.ok []
    runFunnel := fun _ => Except.ok []
    runBehavior := fun _ => Except.ok [] }

/-- A read store that rejects the page-views query (as ClickHouse does
when the spliced INTERVAL text is malformed SQL). -/
def chRejectingStore : ChStore :=
  { chEmpty with runMetrics := fun _ => Except.error "Syntax error while parsing INTERVAL" }

/-! ## Supporting lemmas -/

theorem partition_pv_len (now : String) (genId : Nat → String) :
    ∀ (i : Nat) (events : List RawEvent),
      (partitionEvents now genId i events).pageViews.length
        = events.countP (fun e => decide (routeKind e = some Kind.pageView))
  | _, [] => rfl
  | i, e :: rest => by
    have ih := partition_pv_len now genId (i + 1) rest
    simp only [partitionEvents, List.countP_cons]
    rcases h : routeKind e with _ | k
    · simp [h, ih]
    · cases k <;> simp [h, ih]

theorem partition_gi_len (now : String) (genId : Nat → String) :
    ∀ (i : Nat) (events : List RawEvent),
      (partitionEvents now genId i events).gameInteractions.length
        = events.countP (fun e => decide (routeKind e = some Kind.gameInteraction))
  | _, [] => rfl
  | i, e :: rest => by
    have ih := partition_gi_len now genId (i + 1) rest
    simp only [partitionEvents, List.countP_cons]
    rcases h : routeKind e with _ | k
    · simp [h, ih]
    · cases k <;> simp [h, ih]

theorem partition_se_len (now : String) (genId : Nat → String) :
    ∀ (i : Nat) (events : List RawEvent),
      (partitionEvents now genId i events).searchEvents.length
        = events.countP (fun e => decide (routeKind e = some Kind.search))
  | _, [] => rfl
  | i, e :: rest => by
    have ih := partition_se_len now genId (i + 1) rest
    simp only [partitionEvents, List.countP_cons]
    rcases h : routeKind e with _ | k
    · simp [h, ih]
    · cases k <;> simp [h, ih]

theorem partition_pm_len (now : String) (genId : Nat → String) :
    ∀ (i : Nat) (events : List RawEvent),
      (partitionEvents now genId i events).performanceMetrics.length
        = events.countP (fun e => decide (routeKind e = some Kind.performance))
  | _, [] => rfl
  | i, e :: rest => by
    have ih := partition_pm_len now genId (i + 1) rest
    simp only [partitionEvents, List.countP_cons]
    rcases h : routeKind e with _ | k
    · simp [h, ih]
    · cases k <;> simp [h, ih]

/-- The four kind predicates are mutually exclusive, so the per-kind
counts add up to the count of events with a recognized kind. -/
theorem countP_kinds_sum :
    ∀ events : List RawEvent,
      events.countP (fun e => decide (routeKind e = some Kind.pageView))
      + events.countP (fun e => decide (routeKind e = some Kind.gameInteraction))
      + events.countP (fun e => decide (routeKind e = some Kind.search))
      + events.countP (fun e => decide (routeKind e = some Kind.performance))
      = events.countP (fun e => (routeKind e).isSome)
  | [] => rfl
  | e :: rest => by
    have ih := countP_kinds_sum rest
    simp only [List.countP_cons]
    rcases h : routeKind e with _ | k
    · simp [h]; omega
    · cases k <;> simp [h] <;> omega

theorem insertBatch_ok {α : Type} (attempt : Nat → Except String Unit)
    (h : attempt 0 = Except.ok ()) (table : String) (batch rows : List α) :
    insertBatch attempt table batch rows = Except.ok (rows ++ batch) := by
  unfold insertBatch insertData
  rcases hb : batch.isEmpty with _ | _
  · simp [hb, h]
  · simp [hb, List.isEmpty_iff.mp hb]

/-- Success-path characterization of the events handler: connected,
non-empty events, every insert attempt succeeding. -/
theorem postEvents_ok (events : List RawEvent) (now : String) (genId : Nat → String)
    (attempt : String → Nat → Except String Unit) (s : Store)
    (hne : events ≠ []) (hok : ∀ t, attempt t 0 = Except.ok ()) :
    postEvents true (some events) now genId attempt s =
      (let b := partitionEvents now genId 0 events
       ({ status := 200, success := true,
          message := some "Events processed successfully",
          processed := some (ProcessedField.detail events.length
            b.pageViews.length b.gameInteractions.length
            b.searchEvents.length b.performanceMetrics.length) },
        { page_views := s.page_views ++ b.pageViews,
          game_interactions := s.game_interactions ++ b.gameInteractions,
          search_events := s.search_events ++ b.searchEvents,
          performance_metrics := s.performance_metrics ++ b.performanceMetrics })) := by
  have hne' : events.isEmpty = false := by
    cases events with
    | nil => exact absurd rfl hne
    | cons a l => rfl
  unfold postEvents
  simp only [hne', Bool.false_eq_true, if_false, if_neg, reduceIte]
  rw [insertBatch_ok _ (hok "page_views"), insertBatch_ok _ (hok "game_interactions"),
    insertBatch_ok _ (hok "search_events"), insertBatch_ok _ (hok "performance_metrics")]
  rfl

/-! ## Claim theorems -/

/-- C1 (amended): every call to the events endpoint returns one of three
structured responses: 400 for a missing or empty events array, a 200
success, or — when a store-side insert fails — the catch handler's 500
with success false and the fixed error text. In particular a store
failure is surfaced as a structured 500 error response, and the handler
never re-raises to the caller. -/
theorem c1_events_response_shapes (connected : Bool) (events? : Option (List RawEvent))
    (now : String) (genId : Nat → String) (attempt : String → Nat → Except String Unit)
    (s : Store) :
    ((postEvents connected events? now genId attempt s).1.status = 400 ∧
      (postEvents connected events? now genId attempt s).1.success = false ∧
      (postEvents connected events? now genId attempt s).1.error
        = some "Events array is required")
    ∨ ((postEvents connected events? now genId attempt s).1.status = 200 ∧
      (postEvents connected events? now genId attempt s).1.success = true)
    ∨ ((postEvents connected events? now genId attempt s).1.status = 500 ∧
      (postEvents connected events? now genId attempt s).1.success = false ∧
      (postEvents connected events? now genId attempt s).1.error
        = some "Failed to process analytics events") := by
  unfold postEvents
  rcases events? with _ | events
  · exact Or.inl ⟨rfl, rfl, rfl⟩
  · rcases he : events.isEmpty
    · rcases connected
      · simp only [he]
        exact Or.inr (Or.inl ⟨rfl, rfl⟩)
      · simp only [he]
        rcases h1 : insertBatch (attempt "page_views") "page_views"
            (partitionEvents now genId 0 events).pageViews s.page_views with e | pv
        · simp only [h1]; exact Or.inr (Or.inr ⟨rfl, rfl, rfl⟩)
        · rcases h2 : insertBatch (attempt "game_interactions") "game_interactions"
              (partitionEvents now genId 0 events).gameInteractions s.game_interactions with e | gi
          · simp only [h1, h2]; exact Or.inr (Or.inr ⟨rfl, rfl, rfl⟩)
          · rcases h3 : insertBatch (attempt "search_events") "search_events"
                (partitionEvents now genId 0 events).searchEvents s.search_events with e | se
            · simp only [h1, h2, h3]; exact Or.inr (Or.inr ⟨rfl, rfl, rfl⟩)
            · rcases h4 : insertBatch (attempt "performance_metrics") "performance_metrics"
                  (partitionEvents now genId 0 events).performanceMetrics s.performance_metrics with e | pm
              · simp only [h1, h2, h3, h4]; exact Or.inr (Or.inr ⟨rfl, rfl, rfl⟩)
              · simp only [h1, h2, h3, h4]; exact Or.inr (Or.inl ⟨rfl, rfl⟩)
    · simp only [he]
      exact Or.inl ⟨rfl, rfl, rfl⟩

/-- C1 counterexample to the claim as stated: with the store down, the
ingestion call does not return a non-error structured result — it surfaces
the store failure as an HTTP 500 error response with success false. -/
theorem c1_counterexample :
    (postEvents true (some [evPV]) nowISO uuidAt downAttempt {}).1.status = 500 ∧
    (postEvents true (some [evPV]) nowISO uuidAt downAttempt {}).1.success = false ∧
    (postEvents true (some [evPV]) nowISO uuidAt downAttempt {}).1.error
      = some "Failed to process analytics events" := by
  refine ⟨?_, ?_, ?_⟩ <;> rfl

/-- C2 (amended): an event whose event_type is absent or unrecognized is
silently dropped, not rejected: the success response counts it in
processed.total (the per-kind counts exclude it, counting only events of
recognized kinds), and no rejected list or UnknownKind reason exists in
the response. -/
theorem c2_unknown_kind_dropped (events : List RawEvent) (now : String)
    (genId : Nat → String) (attempt : String → Nat → Except String Unit) (s : Store)
    (hne : events ≠ []) (hok : ∀ t, attempt t 0 = Except.ok ()) :
    (postEvents true (some events) now genId attempt s).1.status = 200 ∧
    (postEvents true (some events) now genId attempt s).1.success = true ∧
    (postEvents true (some events) now genId attempt s).1.processed
      = some (ProcessedField.detail events.length
          (events.countP (fun e => decide (routeKind e = some Kind.pageView)))
          (events.countP (fun e => decide (routeKind e = some Kind.gameInteraction)))
          (events.countP (fun e => decide (routeKind e = some Kind.search)))
          (events.countP (fun e => decide (routeKind e = some Kind.performance)))) := by
  rw [postEvents_ok events now genId attempt s hne hok]
  exact ⟨rfl, rfl, by
    simp only [partition_pv_len, partition_gi_len, partition_se_len, partition_pm_len]⟩

/-- Witness for c2_unknown_kind_dropped at one bogus-kind event: the
response is a 200 success whose processed field is
total 1 with all per-kind counts 0. -/
theorem c2_witness :
    (postEvents true (some [evBogus]) nowISO uuidAt okAttempt {}).1.status = 200 ∧
    (postEvents true (some [evBogus]) nowISO uuidAt okAttempt {}).1.success = true ∧
    (postEvents true (some [evBogus]) nowISO uuidAt okAttempt {}).1.processed
      = some (ProcessedField.detail 1 0 0 0 0) := by
  have h := c2_unknown_kind_dropped [evBogus] nowISO uuidAt okAttempt {}
    (by decide) (fun _ => rfl)
  exact ⟨h.1, h.2.1, by rw [h.2.2]; rfl⟩

/-- C2 counterexample to the claim as stated: submitting the single event
with kind bogus does not yield accepted 0 with a rejection at index 0 —
the response is a 200 success with no rejection information, whose
processed.total is 1 (the bogus event is counted as processed) and whose
per-kind counts are all 0 (it was silently dropped from every batch). -/
theorem c2_counterexample :
    (postEvents true (some [evBogus]) nowISO uuidAt okAttempt {}).1 =
      { status := 200, success := true,
        message := some "Events processed successfully",
        processed := some (ProcessedField.detail 1 0 0 0 0) } := by
  rfl

/-- C3 (amended): a non-empty events array whose inserts all succeed gets
HTTP 200 (not 202) with body success true, the fixed message, and a
processed object holding the total and the four per-kind batch sizes —
there is no accepted/rejected/dead_lettered shape. -/
theorem c3_success_response (events : List RawEvent) (now : String)
    (genId : Nat → String) (attempt : String → Nat → Except String Unit) (s : Store)
    (hne : events ≠ []) (hok : ∀ t, attempt t 0 = Except.ok ()) :
    (postEvents true (some events) now genId attempt s).1 =
      { status := 200, success := true,
        message := some "Events processed successfully",
        processed := some (ProcessedField.detail events.length
          (partitionEvents now genId 0 events).pageViews.length
          (partitionEvents now genId 0 events).gameInteractions.length
          (partitionEvents now genId 0 events).searchEvents.length
          (partitionEvents now genId 0 events).performanceMetrics.length) } := by
  rw [postEvents_ok events now genId attempt s hne hok]

/-- Witness for c3_success_response at one page_view event. -/
theorem c3_witness :
    (postEvents true (some [evPV]) nowISO uuidAt okAttempt {}).1 =
      { status := 200, success := true,
        message := some "Events processed successfully",
        processed := some (ProcessedField.detail 1 1 0 0 0) } := by
  rw [c3_success_response [evPV] nowISO uuidAt okAttempt {} (by decide) (fun _ => rfl)]
  rfl

/-- C3 counterexample to the claim as stated: the accepted response status
is 200, not 202. -/
theorem c3_counterexample :
    (postEvents true (some [evPV]) nowISO uuidAt okAttempt {}).1.status = 200 ∧
    (postEvents true (some [evPV]) nowISO uuidAt okAttempt {}).1.status ≠ 202 := by
  exact ⟨rfl, by decide⟩

/-- C4 (amended): an empty events array is treated as a bad request, the
same as a missing events key: HTTP 400 with success false and the error
text, with the store untouched. -/
theorem c4_empty_events_bad_request (connected : Bool) (now : String)
    (genId : Nat → String) (attempt : String → Nat → Except String Unit) (s : Store) :
    postEvents connected (some []) now genId attempt s =
      ({ status := 400, success := false, error := some "Events array is required" }, s) := by
  rfl

/-- C4 counterexample to the claim as stated: an empty events array gets
status 400 with success false, not a 200 with zero counts. -/
theorem c4_counterexample :
    (postEvents true (some []) nowISO uuidAt okAttempt {}).1.status = 400 ∧
    (postEvents true (some []) nowISO uuidAt okAttempt {}).1.status ≠ 200 ∧
    (postEvents true (some []) nowISO uuidAt okAttempt {}).1.success = false := by
  exact ⟨rfl, by decide, rfl⟩

/-- C5 (amended): the insert path does not deduplicate on event_id — the
tables are plain MergeTree and a successful insertData call appends every
record of the batch, so the number of stored rows carrying any given
event_id grows by the number of batch records carrying it; re-delivery of
an already stored event_id yields a second stored record. -/
theorem c5_insert_no_dedup (attempt : Nat → Except String Unit)
    (hok : attempt 0 = Except.ok ()) (rows data : List PageViewRow)
    (hne : data ≠ []) (id : String) :
    insertData attempt "page_views" data rows =
      Except.ok (rows ++ data, ⟨true, data.length⟩, 1) ∧
    (rows ++ data).countP (fun r => decide (r.event_id = id)) =
      rows.countP (fun r => decide (r.event_id = id))
        + data.countP (fun r => decide (r.event_id = id)) := by
  constructor
  · unfold insertData
    have hb : data.isEmpty = false := by
      cases data with
      | nil => exact absurd rfl hne
      | cons a l => rfl
    simp [hb, hok]
  · exact List.countP_append _ _ _

/-- Witness for c5_insert_no_dedup: inserting two rows that share
event_id dup-1 into an empty table stores both. -/
theorem c5_witness :
    insertData (fun _ => Except.ok ()) "page_views"
        [mkPageViewRow nowISO "uuid-0" evDupA, mkPageViewRow nowISO "uuid-1" evDupB] [] =
      Except.ok ([mkPageViewRow nowISO "uuid-0" evDupA, mkPageViewRow nowISO "uuid-1" evDupB],
        ⟨true, 2⟩, 1) ∧
    (([] : List PageViewRow)
        ++ [mkPageViewRow nowISO "uuid-0" evDupA, mkPageViewRow nowISO "uuid-1" evDupB]).countP
        (fun r => decide (r.event_id = "dup-1")) =
      ([] : List PageViewRow).countP (fun r => decide (r.event_id = "dup-1"))
        + [mkPageViewRow nowISO "uuid-0" evDupA, mkPageViewRow nowISO "uuid-1" evDupB].countP
            (fun r => decide (r.event_id = "dup-1")) :=
  c5_insert_no_dedup (fun _ => Except.ok ()) rfl []
    [mkPageViewRow nowISO "uuid-0" evDupA, mkPageViewRow nowISO "uuid-1" evDupB]
    (by decide) "dup-1"

/-- C5 counterexample to the claim as stated: submitting two events that
carry the same event_id dup-1 through the events endpoint leaves two
stored records with that event_id, not exactly one. -/
theorem c5_counterexample :
    ((postEvents true (some [evDupA, evDupB]) nowISO uuidAt okAttempt {}).2.page_views.countP
        (fun r => decide (r.event_id = "dup-1"))) = 2 ∧ (2 : Nat) ≠ 1 := by
  exact ⟨by rfl, by decide⟩

/-- C6 (amended): insertData performs exactly one insert attempt — its
outcome depends only on the outcome of attempt 0, so there is no retry,
backoff, or dead-letter: when the first attempt fails on a non-empty
batch, the store error propagates as an exception and the batch is not
persisted. -/
theorem c6_single_attempt_no_retry {α : Type} (f g : Nat → Except String Unit)
    (table : String) (data rows : List α) (h0 : f 0 = g 0) :
    insertData f table data rows = insertData g table data rows ∧
    (∀ e, f 0 = Except.error e → data ≠ [] →
      insertData f table data rows = Except.error e) := by
  constructor
  · unfold insertData
    rw [h0]
  · intro e he hne
    unfold insertData
    have hb : data.isEmpty = false := by
      cases data with
      | nil => exact absurd rfl hne
      | cons a l => rfl
    simp [hb, he]

/-- Witness for c6_single_attempt_no_retry at the transient-fault oracle
that fails three times and then succeeds: the call behaves exactly like
one against a store that always fails, and it throws the first timeout —
no later, succeeding attempt is ever made. -/
theorem c6_witness :
    insertData failsThrice "page_views" [pvRowA] [] =
      insertData (fun _ => Except.error "timeout") "page_views" [pvRowA] [] ∧
    insertData failsThrice "page_views" [pvRowA] [] = Except.error "timeout" :=
  ⟨(c6_single_attempt_no_retry failsThrice (fun _ => Except.error "timeout")
      "page_views" [pvRowA] [] rfl).1,
   (c6_single_attempt_no_retry failsThrice (fun _ => Except.error "timeout")
      "page_views" [pvRowA] [] rfl).2 "timeout" rfl (by decide)⟩

/-- C6 counterexample to the claim as stated (the spec example): when the
store call would fail three times and then succeed, the batch is not
eventually persisted — insertData throws the first failure, so there is
neither a retried insert nor a dead-letter hand-off. -/
theorem c6_counterexample :
    insertData failsThrice "page_views" [pvRowA] [] = Except.error "timeout" ∧
    (∀ r : List PageViewRow × InsertResult × Nat,
      insertData failsThrice "page_views" [pvRowA] [] ≠ Except.ok r) := by
  refine ⟨rfl, fun r h => ?_⟩
  rw [show insertData failsThrice "page_views" [pvRowA] [] = Except.error "timeout" from rfl] at h
  exact Except.noConfusion h

/-- C9: the events.forEach partition is disjoint — each per-kind batch
has exactly the events whose event_type routes to that kind, the kinds
are mutually exclusive so the four batch sizes add up to the number of
events with a recognized kind, and that number never exceeds the number
of submitted events: every event is placed in at most one batch. -/
theorem c9_partition_disjoint (now : String) (genId : Nat → String) (i : Nat)
    (events : List RawEvent) :
    (partitionEvents now genId i events).pageViews.length
      = events.countP (fun e => decide (routeKind e = some Kind.pageView)) ∧
    (partitionEvents now genId i events).gameInteractions.length
      = events.countP (fun e => decide (routeKind e = some Kind.gameInteraction)) ∧
    (partitionEvents now genId i events).searchEvents.length
      = events.countP (fun e => decide (routeKind e = some Kind.search)) ∧
    (partitionEvents now genId i events).performanceMetrics.length
      = events.countP (fun e => decide (routeKind e = some Kind.performance)) ∧
    (partitionEvents now genId i events).pageViews.length
      + (partitionEvents now genId i events).gameInteractions.length
      + (partitionEvents now genId i events).searchEvents.length
      + (partitionEvents now genId i events).performanceMetrics.length
      = events.countP (fun e => (routeKind e).isSome) ∧
    events.countP (fun e => (routeKind e).isSome) ≤ events.length :=
  ⟨partition_pv_len now genId i events, partition_gi_len now genId i events,
   partition_se_len now genId i events, partition_pm_len now genId i events,
   by
     rw [partition_pv_len, partition_gi_len, partition_se_len, partition_pm_len]
     exact countP_kinds_sum events,
   List.countP_le_length _⟩

/-- C10: the insertData contract — an empty array returns success with
inserted 0, issuing zero client insert calls and leaving the table rows
unchanged; a non-empty array of n records makes one client insert call
and on success reports inserted n (appending the records); on store
failure it throws the store error. -/
theorem c10_insertData_contract {α : Type} (attempt : Nat → Except String Unit)
    (table : String) (rows : List α) :
    insertData attempt table ([] : List α) rows =
      Except.ok (rows, ⟨true, 0⟩, 0) ∧
    (∀ data : List α, data ≠ [] → attempt 0 = Except.ok () →
      insertData attempt table data rows =
        Except.ok (rows ++ data, ⟨true, data.length⟩, 1)) ∧
    (∀ data : List α, data ≠ [] → ∀ e, attempt 0 = Except.error e →
      insertData attempt table data rows = Except.error e) := by
  refine ⟨rfl, fun data hne hok => ?_, fun data hne e he => ?_⟩
  · have hb : data.isEmpty = false := by
      cases data with
      | nil => exact absurd rfl hne
      | cons a l => rfl
    unfold insertData
    simp [hb, hok]
  · have hb : data.isEmpty = false := by
      cases data with
      | nil => exact absurd rfl hne
      | cons a l => rfl
    unfold insertData
    simp [hb, he]

/-- Witness for c10_insertData_contract: the empty-array, successful and
failing cases, each at a concrete input. -/
theorem c10_witness :
    insertData (fun _ => Except.ok ()) "page_views" ([] : List PageViewRow) [pvRowA] =
      Except.ok ([pvRowA], ⟨true, 0⟩, 0) ∧
    insertData (fun _ => Except.ok ()) "page_views" [pvRowA] [] =
      Except.ok ([] ++ [pvRowA], ⟨true, 1⟩, 1) ∧
    insertData (fun _ => Except.error "boom") "page_views" [pvRowA] [] =
      Except.error "boom" :=
  ⟨(c10_insertData_contract (fun _ => Except.ok ()) "page_views" [pvRowA]).1,
   (c10_insertData_contract (fun _ => Except.ok ()) "page_views" []).2.1 [pvRowA]
     (by decide) rfl,
   (c10_insertData_contract (fun _ => Except.error "boom") "page_views" []).2.2 [pvRowA]
     (by decide) "boom" rfl⟩

/-- C7 (amended): the dashboard handler never validates the range — the
raw timeRange text is spliced into the SQL sent to the store — and it has
no 400 path at all: every response is a 503 (store disconnected), a 200
success, or — when a query fails, as with SQL broken by a malformed
range — a 500 with success false and the fixed error text (and no reason
field: the only body fields are success, error, message and data). -/
theorem c7_dashboard_no_bad_request (connected : Bool) (timeRange? : Option String)
    (ch : ChStore) :
    (dashboardHandler connected timeRange? ch).status ≠ 400 ∧
    ((dashboardHandler connected timeRange? ch).status = 503 ∨
     (dashboardHandler connected timeRange? ch).status = 200 ∨
     ((dashboardHandler connected timeRange? ch).status = 500 ∧
      (dashboardHandler connected timeRange? ch).success = false ∧
      (dashboardHandler connected timeRange? ch).error
        = some "Failed to fetch dashboard analytics")) := by
  have hshape : (dashboardHandler connected timeRange? ch).status = 503 ∨
      (dashboardHandler connected timeRange? ch).status = 200 ∨
      ((dashboardHandler connected timeRange? ch).status = 500 ∧
       (dashboardHandler connected timeRange? ch).success = false ∧
       (dashboardHandler connected timeRange? ch).error
         = some "Failed to fetch dashboard analytics") := by
    unfold dashboardHandler
    rcases connected
    · exact Or.inl rfl
    · rcases h1 : getRealTimeMetrics ch (timeRange?.getD "24 HOUR") with e | rm <;>
        rcases h2 : getGamePopularity ch "7 DAY" with e2 | gp <;>
        rcases h3 : getConversionFunnel ch "7 DAY" with e3 | cf <;>
        rcases h4 : getUserBehaviorMetrics ch "7 DAY" with e4 | ub <;>
        simp only [h1, h2, h3, h4] <;>
        first
          | exact Or.inr (Or.inr ⟨rfl, rfl, rfl⟩)
          | exact Or.inr (Or.inl rfl)
  refine ⟨?_, hshape⟩
  rcases hshape with h | h | h
  · rw [h]; decide
  · rw [h]; decide
  · rw [h.1]; decide

/-- C7 counterexample to the claim as stated: a malformed range does not
get a 400 with a reason field — when the store rejects the SQL built from
it, the response is the catch handler's 500 body, whose only fields are
success, error and message. -/
theorem c7_counterexample :
    dashboardHandler true (some "NOT A RANGE") chRejectingStore =
      { status := 500, success := false,
        error := some "Failed to fetch dashboard analytics",
        message := some "Syntax error while parsing INTERVAL" } ∧
    (dashboardHandler true (some "NOT A RANGE") chRejectingStore).status ≠ 400 := by
  exact ⟨rfl, by decide⟩

/-- C8: a dashboard query over a range with zero events — every store
query succeeds with an empty result set — returns the 200 success view
with every summary count and average zero and every list empty, never an
error response. -/
theorem c8_zero_range_dashboard (timeRange? : Option String) (ch : ChStore)
    (h1 : ch.runMetrics (realTimeQuery (timeRange?.getD "24 HOUR")) = Except.ok [])
    (h2 : ch.runGames (gamePopularityQuery "7 DAY") = Except.ok [])
    (h3 : ch.runFunnel (conversionFunnelQuery "7 DAY") = Except.ok [])
    (h4 : ch.runBehavior (userBehaviorQuery "7 DAY") = Except.ok []) :
    dashboardHandler true timeRange? ch =
      { status := 200, success := true,
        data := some
          { summary := { total_page_views := 0, total_sessions := 0, total_users := 0,
                         avg_session_duration := 0, bounce_rate := 0 }
            realtime_metrics := [], top_games := [], conversion_funnel := [],
            daily_metrics := [], timeRange := timeRange?.getD "24 HOUR" } } := by
  unfold dashboardHandler getRealTimeMetrics getGamePopularity getConversionFunnel
    getUserBehaviorMetrics
  simp only [h1, h2, h3, h4]
  rfl

/-- Witness for c8_zero_range_dashboard on the all-empty store with the
default range. -/
theorem c8_witness :
    dashboardHandler true none chEmpty =
      { status := 200, success := true,
        data := some
          { summary := { total_page_views := 0, total_sessions := 0, total_users := 0,
                         avg_session_duration := 0, bounce_rate := 0 }
            realtime_metrics := [], top_games := [], conversion_funnel := [],
            daily_metrics := [], timeRange := "24 HOUR" } } :=
  c8_zero_range_dashboard none chEmpty rfl rfl rfl rfl

end Lugx
